import Mathlib

/-!
# HomeSystemV3 display client: bridge object and application shell

A shallow embedding of `Packages/display-client/src/backend.h`,
`backend.cpp` and `main.cpp`.

The C++ code is glue around three external services: the C/C++ standard
streams, the Qt debug log and the Qt signal mechanism.  Each call into one of
them that has an outcome visible from outside is recorded, in program order, as
an `Effect` in the `trace` of a `World`.  Besides the trace a `World` holds the
state those services keep between calls: where the two standard streams point,
whether standard output accepts what is written to it, and the sticky error
state of `std::cout`, which the code never clears.  Answers of the system
(`AllocConsole`, `freopen_s`) and the two conditional-compilation switches
(`_WIN32`, `__arm__`) are parameters of the embedded functions.
-/

namespace HomeSystem

/-! ## Strings -/

/-- A `QString`: a sequence of UTF-16 code units (unpaired surrogates allowed). -/
abbrev QString := List UInt16

/-- A `std::string`: a sequence of bytes. -/
abbrev StdString := List UInt8

/-- UTF-16 code units of one Unicode scalar value. -/
def utf16OfChar (c : Char) : List UInt16 :=
  let n := c.toNat
  if n < 0x10000 then [n.toUInt16]
  else
    let v := n - 0x10000
    [(0xD800 + v / 0x400).toUInt16, (0xDC00 + v % 0x400).toUInt16]

/-- The `QString` built from a narrow string literal (`QString::fromUtf8`). -/
def QString.ofLiteral (s : String) : QString :=
  s.toList.flatMap utf16OfChar

/-- The `std::string` denoted by a narrow string literal: its UTF-8 bytes. -/
def StdString.ofLiteral (s : String) : StdString :=
  s.toList.flatMap String.utf8EncodeChar

/-- UTF-8 bytes of a code point below `0x110000`. -/
def utf8OfCodePoint (n : Nat) : List UInt8 :=
  if n < 0x80 then [n.toUInt8]
  else if n < 0x800 then
    [(0xC0 + n / 0x40).toUInt8, (0x80 + n % 0x40).toUInt8]
  else if n < 0x10000 then
    [(0xE0 + n / 0x1000).toUInt8, (0x80 + n / 0x40 % 0x40).toUInt8,
     (0x80 + n % 0x40).toUInt8]
  else
    [(0xF0 + n / 0x40000).toUInt8, (0x80 + n / 0x1000 % 0x40).toUInt8,
     (0x80 + n / 0x40 % 0x40).toUInt8, (0x80 + n % 0x40).toUInt8]

/-- Whether a code unit is a high (leading) surrogate. -/
def isHighSurrogate (u : UInt16) : Bool :=
  0xD800 ≤ u.toNat && u.toNat < 0xDC00

/-- Whether a code unit is a low (trailing) surrogate. -/
def isLowSurrogate (u : UInt16) : Bool :=
  0xDC00 ≤ u.toNat && u.toNat < 0xE000

/-- The conversion `QString::toStdString()`, i.e. `toUtf8()`: the UTF-8 encoding of
the UTF-16 sequence.  A surrogate pair becomes one four-byte sequence; an
unpaired surrogate is an encoding error, for which Qt writes `?`. -/
def QString.toStdString : QString → StdString
  | [] => []
  | [u] =>
    if isHighSurrogate u || isLowSurrogate u then [0x3F]
    else utf8OfCodePoint u.toNat
  | u :: v :: rest =>
    if isHighSurrogate u && isLowSurrogate v then
      utf8OfCodePoint (0x10000 + (u.toNat - 0xD800) * 0x400 + (v.toNat - 0xDC00))
        ++ QString.toStdString rest
    else if isHighSurrogate u || isLowSurrogate u then
      0x3F :: QString.toStdString (v :: rest)
    else
      utf8OfCodePoint u.toNat ++ QString.toStdString (v :: rest)

/-! ## Observable effects and the world they act on -/

/-- Where a standard stream currently delivers what is written to it. -/
inductive Dest where
  /-- The destination the process was started with. -/
  | inherited
  /-- A file or device the stream was reopened on by `freopen_s`. -/
  | reopened (path : String)
  /-- Nowhere: a failed `freopen_s` has closed the stream. -/
  | closed
  deriving DecidableEq, Repr

/-- The two C standard streams the code touches. -/
inductive StdStream where
  | stdout
  | stderr
  deriving DecidableEq, Repr

/-- One operand streamed into a `qDebug()` temporary. -/
inductive DebugItem where
  /-- A narrow string literal. -/
  | cstr (s : String)
  /-- A `QString` operand. -/
  | qstr (s : QString)
  deriving DecidableEq, Repr

/-- One call into an external service, as observed from outside the program. -/
inductive Effect where
  /-- The call `AllocConsole()` and the answer the system gave. -/
  | allocConsole (ok : Bool)
  /-- The call `freopen_s(&fp, path, mode, stream)` and whether it succeeded. -/
  | freopen (path mode : String) (stream : StdStream) (ok : Bool)
  /-- Bytes inserted into `std::cout` that were delivered to `dest`. -/
  | coutBytes (dest : Dest) (bytes : StdString)
  /-- A `std::endl` on `std::cout` that was delivered to `dest`: a newline, flushed. -/
  | coutEndl (dest : Dest)
  /-- One message handed to the Qt debug log by a `qDebug()` statement. -/
  | debugLog (items : List DebugItem)
  /-- An emission of the signal `dataFromQt(const QString&)`. -/
  | dataFromQt (message : QString)
  /-- An emission of the signal `numberResult(int)`. -/
  | numberResult (result : Int)
  deriving DecidableEq, Repr

/-- The program-visible environment of the bridge object. -/
structure World where
  /-- Current destination of `stdout` (and hence of `std::cout`). -/
  stdoutDest : Dest
  /-- Whether the current destination of `stdout` accepts output.  It does not when
  the process was started without a usable standard output (closed, or a GUI
  process without console) or when the stream was closed by a failed `freopen_s`. -/
  stdoutUsable : Bool
  /-- Current destination of `stderr`. -/
  stderrDest : Dest
  /-- Whether `badbit` or `failbit` is set on `std::cout`.  Once set it stays set:
  the code never calls `std::cout.clear()`. -/
  coutFailed : Bool
  /-- Every effect so far, oldest first. -/
  trace : List Effect
  deriving DecidableEq, Repr

/-- The world at process start: both streams as inherited, `std::cout` in its good
state, nothing done yet.  `stdoutUsable` says whether the inherited standard
output accepts output. -/
def World.fresh (stdoutUsable : Bool) : World :=
  { stdoutDest := .inherited, stdoutUsable := stdoutUsable, stderrDest := .inherited,
    coutFailed := false, trace := [] }

/-- Whether an insertion into `std::cout` reaches its destination: the stream is in
its good state and standard output accepts output. -/
def World.coutWorks (w : World) : Bool :=
  !w.coutFailed && w.stdoutUsable

/-- What a C++ call can raise instead of returning. -/
inductive Fault where
  /-- A C++ exception with its `what()` text. -/
  | exception (what : String)
  deriving DecidableEq, Repr

/-- A C++ statement sequence: it transforms the world and either returns a
value or raises. -/
abbrev Exec := StateT World (Except Fault)

/-- Append one effect to the trace. -/
def record (e : Effect) : Exec Unit :=
  modify fun w => { w with trace := w.trace ++ [e] }

/-- The statement `qDebug() << item₁ << … ;`: the message is handed to the log
when the temporary is destroyed at the end of the statement. -/
def qDebug (items : List DebugItem) : Exec Unit :=
  record (.debugLog items)

/-- The expression `std::cout << s` for a string operand.  On a stream that has
failed the insertion does nothing.  Otherwise the bytes go to standard output; if
that does not accept output they get no further than its buffer and are lost. -/
def coutInsert (s : StdString) : Exec Unit := do
  let w ← get
  if w.coutFailed then
    pure ()
  else if w.stdoutUsable then
    record (.coutBytes w.stdoutDest s)
  else
    pure ()

/-- The expression `std::cout << std::endl`.  On a stream that has failed it does
nothing.  Otherwise it inserts a newline and flushes; if standard output does not
accept output the flush fails, which sets `badbit` on `std::cout` for good. -/
def coutEndl : Exec Unit := do
  let w ← get
  if w.coutFailed then
    pure ()
  else if w.stdoutUsable then
    record (.coutEndl w.stdoutDest)
  else
    modify fun w => { w with coutFailed := true }

/-- The Win32 call `AllocConsole()`; `ok` is the answer of the system. -/
def AllocConsole (ok : Bool) : Exec Bool := do
  record (.allocConsole ok)
  pure ok

/-- The call `freopen_s(&fp, path, mode, stream)`, whose result the code ignores;
`ok` is the answer of the system.  The stream is closed first; on success it is
reopened on `path`, on failure it stays closed.  The error state of `std::cout`
is not touched either way. -/
def freopen_s (ok : Bool) (path mode : String) (stream : StdStream) : Exec Unit := do
  record (.freopen path mode stream ok)
  match stream with
  | .stdout =>
    modify fun w =>
      if ok then { w with stdoutDest := .reopened path, stdoutUsable := true }
      else { w with stdoutDest := .closed, stdoutUsable := false }
  | .stderr =>
    modify fun w =>
      { w with stderrDest := if ok then .reopened path else .closed }

/-- The statement `emit dataFromQt(message)`. -/
def emitDataFromQt (message : QString) : Exec Unit :=
  record (.dataFromQt message)

/-! ## The bridge object (`backend.h`, `backend.cpp`) -/

/-- The compile-time platform switch `_WIN32`. -/
inductive Platform where
  /-- Compiled with `_WIN32` defined. -/
  | win32
  /-- Compiled without `_WIN32` (Linux/Unix). -/
  | posix
  deriving DecidableEq, Repr

/-- The slot `Backend::openConsole()`.  `allocOk`, `outOk` and `errOk` are the answers
`AllocConsole()` and the two `freopen_s` calls would give if they are called. -/
def Backend.openConsole (platform : Platform) (allocOk outOk errOk : Bool) : Exec Unit :=
  match platform with
  | .win32 => do
    if !(← AllocConsole allocOk) then
      pure ()
    else
      freopen_s outOk "CONOUT$" "w" .stdout
      freopen_s errOk "CONOUT$" "w" .stderr
      coutInsert (StdString.ofLiteral "Windows Console Allocated!")
      coutEndl
  | .posix => do
    coutInsert (StdString.ofLiteral "Console already available on Linux/Unix")
    coutEndl
    qDebug [.cstr "Running on Linux - console output goes to terminal"]

/-- The slot `Backend::receiveData(const QString& data)`. -/
def Backend.receiveData (data : QString) : Exec Unit := do
  qDebug [.cstr "Received from JavaScript:", .qstr data]
  coutInsert (StdString.ofLiteral "JS sent: ")
  coutInsert data.toStdString
  coutEndl
  emitDataFromQt (QString.ofLiteral "Qt received: " ++ data)

/-- One invocation of a slot of the bridge object. -/
inductive Call where
  /-- The page or native code calls `receiveData(data)`. -/
  | receiveData (data : QString)
  /-- Someone calls `openConsole()`; the arguments are what `AllocConsole()` and the
  two `freopen_s` calls would answer. -/
  | openConsole (allocOk outOk errOk : Bool)
  deriving DecidableEq, Repr

/-- Perform one slot invocation. -/
def Call.exec (platform : Platform) : Call → Exec Unit
  | .receiveData data => Backend.receiveData data
  | .openConsole allocOk outOk errOk => Backend.openConsole platform allocOk outOk errOk

/-- Perform a sequence of slot invocations, one after the other; a raised fault
ends the sequence. -/
def runCalls (platform : Platform) : List Call → Exec Unit
  | [] => pure ()
  | c :: cs => do
    c.exec platform
    runCalls platform cs

/-- The world an execution returns with, if it returns. -/
def Exec.finalWorld (x : Exec Unit) (w : World) : Option World :=
  match x.run w with
  | .ok (_, w') => some w'
  | .error _ => none

/-- The effects an execution adds to a world (empty if it raises). -/
def Exec.effects (x : Exec Unit) (w : World) : List Effect :=
  match x.run w with
  | .ok (_, w') => w'.trace.drop w.trace.length
  | .error _ => []

/-! ## Projections of a trace -/

/-- Payloads of the `dataFromQt` emissions in a trace, in order. -/
def dataFromQtPayloads : List Effect → List QString
  | [] => []
  | .dataFromQt m :: es => m :: dataFromQtPayloads es
  | _ :: es => dataFromQtPayloads es

/-- Arguments of the `numberResult` emissions in a trace, in order. -/
def numberResults : List Effect → List Int
  | [] => []
  | .numberResult n :: es => n :: numberResults es
  | _ :: es => numberResults es

/-- Debug-log messages in a trace, in order. -/
def debugEntries : List Effect → List (List DebugItem)
  | [] => []
  | .debugLog items :: es => items :: debugEntries es
  | _ :: es => debugEntries es

/-- The bytes a trace delivers through `std::cout` to destination `d`, in order. -/
def stdoutBytes (d : Dest) : List Effect → StdString
  | [] => []
  | .coutBytes d' bytes :: es =>
    if d' = d then bytes ++ stdoutBytes d es else stdoutBytes d es
  | .coutEndl d' :: es =>
    if d' = d then 0x0A :: stdoutBytes d es else stdoutBytes d es
  | _ :: es => stdoutBytes d es

/-- How many line terminators (`std::endl`) a trace writes to `std::cout`. -/
def linesEnded : List Effect → Nat
  | [] => 0
  | .coutEndl _ :: es => linesEnded es + 1
  | _ :: es => linesEnded es

/-- The objects `main` declares, in declaration order. -/
inductive Local where
  /-- The object `QApplication app(argc, argv)`. -/
  | app
  /-- The object `QWebEngineView view`. -/
  | view
  /-- The object `Backend backend`. -/
  | backend
  /-- The object `QWebChannel channel`. -/
  | channel
  deriving DecidableEq, Repr

/-- The page settings `main` sets. -/
inductive WebAttribute where
  | LocalContentCanAccessFileUrls
  | LocalContentCanAccessRemoteUrls
  deriving DecidableEq, Repr

/-- How the view was put on screen. -/
inductive ShowMode where
  /-- By `view.showFullScreen()`. -/
  | fullScreen
  /-- By `view.show()`. -/
  | normal
  deriving DecidableEq, Repr

/-- State of the objects owned by `main`. -/
structure Shell where
  /-- Objects constructed so far, oldest first. -/
  constructed : List Local
  /-- Size given to the view by `resize`. -/
  viewSize : Option (Nat × Nat)
  /-- Title given to the view by `setWindowTitle`. -/
  windowTitle : Option String
  /-- Objects registered on `channel`, newest first, each under its id. -/
  registeredObjects : List (String × Local)
  /-- The channel attached to the page of the view by `setWebChannel`. -/
  pageChannel : Option Local
  /-- Page attributes set explicitly, newest first. -/
  attributes : List (WebAttribute × Bool)
  /-- The URL whose load was started by `setUrl`. -/
  url : Option String
  /-- Whether and how the view was shown. -/
  shown : Option ShowMode
  /-- Whether `app.exec()` was entered. -/
  inEventLoop : Bool
  deriving DecidableEq, Repr

/-- The state on entry to `main`. -/
def Shell.start : Shell :=
  { constructed := [], viewSize := none, windowTitle := none, registeredObjects := [],
    pageChannel := none, attributes := [], url := none, shown := none,
    inEventLoop := false }

/-- One statement of `main`. -/
inductive ShellStep where
  /-- A declaration that constructs a local object. -/
  | construct (obj : Local)
  /-- The call `view.resize(w, h)`. -/
  | resize (w h : Nat)
  /-- The call `view.setWindowTitle(title)`. -/
  | setWindowTitle (title : String)
  /-- The call `channel.registerObject(id, &obj)`. -/
  | registerObject (id : String) (obj : Local)
  /-- The call `view.page()->setWebChannel(&ch)`. -/
  | setWebChannel (ch : Local)
  /-- The call `view.page()->settings()->setAttribute(attr, value)`. -/
  | setAttribute (attr : WebAttribute) (value : Bool)
  /-- The call `view.setUrl(QUrl(url))`, which starts loading `url`. -/
  | setUrl (url : String)
  /-- The call `view.showFullScreen()`. -/
  | showFullScreen
  /-- The call `view.show()`. -/
  | showView
  /-- The call `app.exec()`. -/
  | exec
  deriving DecidableEq, Repr

/-- Effect of one statement of `main` on the shell state. -/
def ShellStep.apply : ShellStep → Shell → Shell
  | .construct obj, s => { s with constructed := s.constructed ++ [obj] }
  | .resize w h, s => { s with viewSize := some (w, h) }
  | .setWindowTitle title, s => { s with windowTitle := some title }
  | .registerObject id obj, s =>
    { s with registeredObjects := (id, obj) :: s.registeredObjects }
  | .setWebChannel ch, s => { s with pageChannel := some ch }
  | .setAttribute attr value, s => { s with attributes := (attr, value) :: s.attributes }
  | .setUrl url, s => { s with url := some url }
  | .showFullScreen, s => { s with shown := some .fullScreen }
  | .showView, s => { s with shown := some .normal }
  | .exec, s => { s with inEventLoop := true }

/-- The statements of `main`, in order; `arm` says whether `__arm__` is defined. -/
def mainSteps (arm : Bool) : List ShellStep :=
  [ .construct .app,
    .construct .view,
    .resize 800 600,
    .setWindowTitle "Cross-Platform Web UI",
    .construct .backend,
    .construct .channel,
    .registerObject "backend" .backend,
    .setWebChannel .channel,
    .setAttribute .LocalContentCanAccessFileUrls true,
    .setAttribute .LocalContentCanAccessRemoteUrls true,
    .setUrl "qrc:/index.html",
    if arm then .showFullScreen else .showView,
    .exec ]

/-- The state a statement sequence starts in, followed by the state after each of
its statements. -/
def statesFrom : Shell → List ShellStep → List Shell
  | s, [] => [s]
  | s, step :: rest => s :: statesFrom (step.apply s) rest

/-- Every state `main` passes through, from entry to the event loop. -/
def mainStates (arm : Bool) : List Shell :=
  statesFrom Shell.start (mainSteps arm)

/-- The object a page script finds under `name`: the one registered under that id
on the channel attached to the page, if a channel is attached. -/
def Shell.pageLookup (s : Shell) (name : String) : Option Local :=
  match s.pageChannel with
  | some .channel => s.registeredObjects.lookup name
  | _ => none

/-- Whether the load of the start resource has been started. -/
def Shell.loadStarted (s : Shell) : Bool :=
  s.url.isSome

/-- The state of a non-ARM build right after its eleventh statement,
`view.setUrl(QUrl("qrc:/index.html"))`. -/
def Shell.afterSetUrl : Shell :=
  ((mainSteps false).take 11).foldl (fun s step => step.apply s) Shell.start

/-! ## Projections distribute over concatenation of traces -/

theorem dataFromQtPayloads_append (t es : List Effect) :
    dataFromQtPayloads (t ++ es) = dataFromQtPayloads t ++ dataFromQtPayloads es := by
  induction t with
  | nil => rfl
  | cons e t ih => cases e <;> simp [dataFromQtPayloads, ih]

theorem numberResults_append (t es : List Effect) :
    numberResults (t ++ es) = numberResults t ++ numberResults es := by
  induction t with
  | nil => rfl
  | cons e t ih => cases e <;> simp [numberResults, ih]

theorem debugEntries_append (t es : List Effect) :
    debugEntries (t ++ es) = debugEntries t ++ debugEntries es := by
  induction t with
  | nil => rfl
  | cons e t ih => cases e <;> simp [debugEntries, ih]

theorem linesEnded_append (t es : List Effect) :
    linesEnded (t ++ es) = linesEnded t + linesEnded es := by
  induction t with
  | nil => simp [linesEnded]
  | cons e t ih =>
    cases e <;> simp [linesEnded, ih]
    omega

theorem stdoutBytes_append (d : Dest) (t es : List Effect) :
    stdoutBytes d (t ++ es) = stdoutBytes d t ++ stdoutBytes d es := by
  induction t with
  | nil => rfl
  | cons e t ih =>
    cases e with
    | coutBytes d' bytes => by_cases h : d' = d <;> simp [stdoutBytes, ih, h]
    | coutEndl d' => by_cases h : d' = d <;> simp [stdoutBytes, ih, h]
    | _ => simp [stdoutBytes, ih]

/-! ## What one call of each slot does -/

theorem finalWorld_of_run {x : Exec Unit} {w w' : World}
    (h : x.run w = .ok ((), w')) : x.finalWorld w = some w' := by
  simp only [Exec.finalWorld, h]

theorem effects_of_run {x : Exec Unit} {w w' : World} {es : List Effect}
    (h : x.run w = .ok ((), w')) (ht : w'.trace = w.trace ++ es) : x.effects w = es := by
  simp [Exec.effects, h, ht]

/-- The slot `receiveData` returns.  It logs, writes its line if `std::cout` works,
and emits; if standard output does not accept output, `std::cout` has failed
afterwards. -/
theorem receiveData_run (data : QString) (w : World) :
    (Backend.receiveData data).run w = .ok ((),
      { w with
        coutFailed := w.coutFailed || !w.stdoutUsable
        trace := w.trace ++
          (.debugLog [.cstr "Received from JavaScript:", .qstr data] ::
            ((if w.coutWorks then
                [.coutBytes w.stdoutDest (StdString.ofLiteral "JS sent: "),
                 .coutBytes w.stdoutDest data.toStdString,
                 .coutEndl w.stdoutDest]
              else []) ++
             [.dataFromQt (QString.ofLiteral "Qt received: " ++ data)])) }) := by
  obtain ⟨d, u, e, f, t⟩ := w
  cases u <;> cases f <;>
    simp [Backend.receiveData, qDebug, coutInsert, coutEndl, emitDataFromQt, record,
      World.coutWorks, StateT.run, bind, StateT.bind, Except.bind, modify, modifyGet,
      MonadStateOf.modifyGet, StateT.modifyGet, get, getThe, MonadStateOf.get, StateT.get,
      pure, Except.pure, StateT.pure]

theorem receiveData_effects (data : QString) (w : World) :
    (Backend.receiveData data).effects w =
      .debugLog [.cstr "Received from JavaScript:", .qstr data] ::
        ((if w.coutWorks then
            [.coutBytes w.stdoutDest (StdString.ofLiteral "JS sent: "),
             .coutBytes w.stdoutDest data.toStdString,
             .coutEndl w.stdoutDest]
          else []) ++
         [.dataFromQt (QString.ofLiteral "Qt received: " ++ data)]) :=
  effects_of_run (receiveData_run data w) rfl

/-- Without `_WIN32`, `openConsole` returns.  It writes its line if `std::cout` works
and logs. -/
theorem openConsole_run_posix (allocOk outOk errOk : Bool) (w : World) :
    (Backend.openConsole .posix allocOk outOk errOk).run w = .ok ((),
      { w with
        coutFailed := w.coutFailed || !w.stdoutUsable
        trace := w.trace ++
          ((if w.coutWorks then
              [.coutBytes w.stdoutDest
                 (StdString.ofLiteral "Console already available on Linux/Unix"),
               .coutEndl w.stdoutDest]
            else []) ++
           [.debugLog [.cstr "Running on Linux - console output goes to terminal"]]) }) := by
  obtain ⟨d, u, e, f, t⟩ := w
  cases u <;> cases f <;>
    simp [Backend.openConsole, qDebug, coutInsert, coutEndl, record,
      World.coutWorks, StateT.run, bind, StateT.bind, Except.bind, modify, modifyGet,
      MonadStateOf.modifyGet, StateT.modifyGet, get, getThe, MonadStateOf.get, StateT.get,
      pure, Except.pure, StateT.pure]

/-- With `_WIN32`, a refused `AllocConsole()` is the only effect of `openConsole`. -/
theorem openConsole_run_win32_refused (outOk errOk : Bool) (w : World) :
    (Backend.openConsole .win32 false outOk errOk).run w = .ok ((),
      { w with trace := w.trace ++ [.allocConsole false] }) := by
  simp [Backend.openConsole, AllocConsole, record,
    StateT.run, bind, StateT.bind, Except.bind, modify, modifyGet, MonadStateOf.modifyGet,
    StateT.modifyGet, get, getThe, MonadStateOf.get, StateT.get, pure, Except.pure,
    StateT.pure]

/-- With `_WIN32`, a granted `AllocConsole()` is followed by the two `freopen_s` calls
and, if standard output was reopened and `std::cout` had not failed, by one line on
`std::cout`. -/
theorem openConsole_run_win32_granted (outOk errOk : Bool) (w : World) :
    (Backend.openConsole .win32 true outOk errOk).run w = .ok ((),
      { stdoutDest := if outOk then .reopened "CONOUT$" else .closed
        stdoutUsable := outOk
        stderrDest := if errOk then .reopened "CONOUT$" else .closed
        coutFailed := w.coutFailed || !outOk
        trace := w.trace ++
          ([.allocConsole true,
            .freopen "CONOUT$" "w" .stdout outOk,
            .freopen "CONOUT$" "w" .stderr errOk] ++
           (if (!w.coutFailed && outOk) then
              [.coutBytes (.reopened "CONOUT$")
                 (StdString.ofLiteral "Windows Console Allocated!"),
               .coutEndl (.reopened "CONOUT$")]
            else [])) }) := by
  obtain ⟨d, u, e, f, t⟩ := w
  cases outOk <;> cases errOk <;> cases f <;>
    simp [Backend.openConsole, AllocConsole, freopen_s, coutInsert, coutEndl, record,
      StateT.run, bind, StateT.bind, Except.bind, modify, modifyGet,
      MonadStateOf.modifyGet, StateT.modifyGet, get, getThe, MonadStateOf.get, StateT.get,
      pure, Except.pure, StateT.pure]

/-- Every slot invocation returns, and what it appends holds no `numberResult`. -/
theorem call_run (platform : Platform) (c : Call) (w : World) :
    ∃ w' es, (c.exec platform).run w = .ok ((), w') ∧ w'.trace = w.trace ++ es ∧
      numberResults es = [] := by
  cases c with
  | receiveData data =>
    refine ⟨_, _, receiveData_run data w, rfl, ?_⟩
    cases w.coutWorks <;> rfl
  | openConsole allocOk outOk errOk =>
    cases platform with
    | posix =>
      refine ⟨_, _, openConsole_run_posix allocOk outOk errOk w, rfl, ?_⟩
      cases w.coutWorks <;> rfl
    | win32 =>
      cases allocOk with
      | false => exact ⟨_, _, openConsole_run_win32_refused outOk errOk w, rfl, rfl⟩
      | true =>
        refine ⟨_, _, openConsole_run_win32_granted outOk errOk w, rfl, ?_⟩
        cases (!w.coutFailed && outOk) <;> rfl

/-- Every sequence of slot invocations returns, and what it appends holds no
`numberResult`. -/
theorem runCalls_run (platform : Platform) (calls : List Call) (w : World) :
    ∃ w' es, (runCalls platform calls).run w = .ok ((), w') ∧ w'.trace = w.trace ++ es ∧
      numberResults es = [] := by
  induction calls generalizing w with
  | nil => exact ⟨w, [], rfl, by simp, rfl⟩
  | cons c cs ih =>
    obtain ⟨w₁, es₁, h₁, ht₁, hn₁⟩ := call_run platform c w
    obtain ⟨w₂, es₂, h₂, ht₂, hn₂⟩ := ih w₁
    refine ⟨w₂, es₁ ++ es₂, ?_, ?_, ?_⟩
    · simp only [runCalls, StateT.run_bind, h₁]
      exact h₂
    · rw [ht₂, ht₁, List.append_assoc]
    · rw [numberResults_append, hn₁, hn₂]; rfl

/-- C1: for every string `m` and every world, one call `receiveData(m)` returns and
the `dataFromQt` emissions it adds are exactly one, with payload
`"Qt received: " ++ m`; the emissions of the whole trace grow by that one. -/
theorem receiveData_emits_once (m : QString) (w : World) :
    dataFromQtPayloads ((Backend.receiveData m).effects w)
        = [QString.ofLiteral "Qt received: " ++ m] ∧
      ∃ w', (Backend.receiveData m).finalWorld w = some w' ∧
        dataFromQtPayloads w'.trace
          = dataFromQtPayloads w.trace ++ [QString.ofLiteral "Qt received: " ++ m] := by
  refine ⟨?_, _, finalWorld_of_run (receiveData_run m w), ?_⟩
  · rw [receiveData_effects]
    cases w.coutWorks <;> simp [dataFromQtPayloads]
  · cases h : w.coutWorks <;> simp [dataFromQtPayloads_append, dataFromQtPayloads]

/-- C2: `receiveData` never raises: for every input string and every world the call
returns normally, and it is never a fault. -/
theorem receiveData_never_raises (m : QString) (w : World) :
    (∃ w', (Backend.receiveData m).run w = Except.ok ((), w')) ∧
      ∀ f : Fault, (Backend.receiveData m).run w ≠ Except.error f := by
  refine ⟨⟨_, receiveData_run m w⟩, ?_⟩
  intro f h
  rw [receiveData_run] at h
  cases h

/-- C4: with `_WIN32`, when `AllocConsole()` fails, `openConsole` returns normally at
once: the failed call is its only effect, neither standard stream is redirected,
nothing is written to standard output or the debug log and nothing is emitted. -/
theorem openConsole_alloc_failure_silent (outOk errOk : Bool) (w : World) :
    ∃ w', (Backend.openConsole .win32 false outOk errOk).run w = Except.ok ((), w') ∧
      w'.stdoutDest = w.stdoutDest ∧ w'.stderrDest = w.stderrDest ∧
      (Backend.openConsole .win32 false outOk errOk).effects w = [.allocConsole false] ∧
      (∀ d, stdoutBytes d w'.trace = stdoutBytes d w.trace) ∧
      linesEnded w'.trace = linesEnded w.trace ∧
      debugEntries w'.trace = debugEntries w.trace ∧
      dataFromQtPayloads w'.trace = dataFromQtPayloads w.trace ∧
      numberResults w'.trace = numberResults w.trace := by
  refine ⟨_, openConsole_run_win32_refused outOk errOk w, rfl, rfl,
    effects_of_run (openConsole_run_win32_refused outOk errOk w) rfl, ?_, ?_, ?_, ?_, ?_⟩
  · intro d; simp [stdoutBytes_append, stdoutBytes]
  · simp [linesEnded_append, linesEnded]
  · simp [debugEntries_append, debugEntries]
  · simp [dataFromQtPayloads_append, dataFromQtPayloads]
  · simp [numberResults_append, numberResults]

/-- C7: `numberResult` is never emitted: every sequence of `receiveData` and
`openConsole` calls, on either platform and with any arguments, returns and leaves
the `numberResult` emissions of the trace as they were, adding none; started from
a fresh world there are none at all. -/
theorem numberResult_never_emitted (platform : Platform) (calls : List Call) (w : World)
    (stdoutUsable : Bool) :
    (∃ w', (runCalls platform calls).finalWorld w = some w' ∧
        numberResults w'.trace = numberResults w.trace) ∧
      numberResults ((runCalls platform calls).effects w) = [] ∧
      ∃ w', (runCalls platform calls).finalWorld (World.fresh stdoutUsable) = some w' ∧
        numberResults w'.trace = [] := by
  obtain ⟨w', es, hr, ht, hn⟩ := runCalls_run platform calls w
  obtain ⟨v', fs, hr', ht', hn'⟩ := runCalls_run platform calls (World.fresh stdoutUsable)
  refine ⟨⟨w', finalWorld_of_run hr, ?_⟩, ?_, v', finalWorld_of_run hr', ?_⟩
  · rw [ht, numberResults_append, hn, List.append_nil]
  · rw [effects_of_run hr ht, hn]
  · rw [ht', numberResults_append, hn']; rfl

/-- C8: in every state `main` passes through in which the load of the start resource
has been started, the bridge object is registered on the channel under the exact
name `"backend"`, the channel is attached to the page, and so a page script finds
the bridge object under `"backend"`. -/
theorem main_backend_reachable_from_load (arm : Bool) (s : Shell)
    (hs : s ∈ mainStates arm) (hload : s.loadStarted = true) :
    s.registeredObjects.lookup "backend" = some .backend ∧
      s.pageChannel = some .channel ∧
      s.pageLookup "backend" = some .backend := by
  have key : ∀ arm : Bool, ∀ s ∈ mainStates arm, s.loadStarted = true →
      (s.registeredObjects.lookup "backend" = some .backend ∧
        s.pageChannel = some .channel ∧
        s.pageLookup "backend" = some .backend) := by decide
  exact key arm s hs hload

/-- The state right after `setUrl` on a non-ARM build is a state of `main` with the
load started, and there `"backend"` names the bridge object. -/
theorem main_backend_reachable_from_load_witness :
    Shell.afterSetUrl ∈ mainStates false ∧ Shell.afterSetUrl.loadStarted = true ∧
      (Shell.afterSetUrl.registeredObjects.lookup "backend" = some .backend ∧
        Shell.afterSetUrl.pageChannel = some .channel ∧
        Shell.afterSetUrl.pageLookup "backend" = some .backend) :=
  ⟨by decide, by decide,
    main_backend_reachable_from_load false Shell.afterSetUrl (by decide) (by decide)⟩

end HomeSystem
